import Mathlib

/-!
Shallow embedding of `db/deprecated/transforms/base.py` (Mathesar's deprecated
query-transform pipeline) and proofs of the specification claims about it.

Modelling conventions:
* Python exceptions are modelled with `Except PyError`.  `PyError.valueError`
  models the `ValueError` raised in `Transform.__init__` (the spec's
  ConfigurationError); `PyError.assertionError` models a failed `assert`
  (the spec's RelationShapeError); `PyError.keyError k` models a `KeyError`
  on dict/column access with key `k` (the spec's UnknownColumnError when the
  key is a column name).
* A dict key that the code reads with `d['k']` but that the payload may omit
  is modelled as an `Option` field, `none` meaning the key is absent, so the
  access is a fallible operation.  Keys the code and spec both treat as
  required are plain fields.
* SQLAlchemy relations are modelled by the inductive `Relation`; arbitrary
  Python objects handed to functions that `assert isinstance(_, Selectable)`
  are modelled by `PyObj`, whose `nonSelectable` constructor stands for any
  non-selectable value.
* External collaborators (the DB-function registry, the filter applier, the
  deterministic-sort helper) are modelled as opaque expression constructors
  or as function parameters, exactly as §6 of the spec scopes them out.
-/

/-- Python exceptions raised by the embedded code. -/
inductive PyError where
  | keyError (key : String)
  | valueError (msg : String)
  | assertionError
deriving Repr, DecidableEq

/-- `UniqueConstraintMapping` (base.py lines 13-38): a pair of an optional
input alias and an output alias. -/
structure UniqueConstraintMapping where
  input_alias : Option String
  output_alias : String
deriving Repr, DecidableEq

/-- One item of a Summarize spec's `grouping_expressions` list.  Per the
docstring of `Summarize`, `output_alias` and `preproc` are optional keys;
`input_alias` is required. -/
structure GroupingColSpec where
  input_alias : String
  output_alias : Option String
  preproc : Option String
deriving Repr, DecidableEq

/-- One item of a Summarize spec's `aggregation_expressions` list; all three
keys are required (`output_alias` and `function` are "required for
aggregation cols" per the docstring). -/
structure AggregationColSpec where
  input_alias : String
  output_alias : String
  function : String
deriving Repr, DecidableEq

/-- The `spec` dict of a `Summarize` transform.  The two expression lists are
read with `self.spec.get(field, [])`, so a missing key behaves as `[]`; we
model them as plain lists. -/
structure SummarizeSpec where
  base_grouping_column : String
  grouping_expressions : List GroupingColSpec
  aggregation_expressions : List AggregationColSpec
deriving Repr, DecidableEq

/-- Opaque filter-expression descriptor (external collaborator payload). -/
def FilterSpec := String
deriving instance Repr, DecidableEq for FilterSpec

/-- Opaque order-by descriptor (external collaborator payload). -/
def OrderSpec := String
deriving instance Repr, DecidableEq for OrderSpec

/-- SQLAlchemy column expressions, as far as the embedded code builds or
inspects them: a column of the current relation (`relation.columns[name]`),
a DB-function application (`apply_db_function_by_id`, external registry
modelled as an opaque constructor), and a labelled expression
(`expr.label(alias)`). -/
inductive SAExpr where
  | colRef (name : String)
  | fnApp (fnId : String) (args : List SAExpr)
  | label (e : SAExpr) (labelName : String)

/-- The externally visible name of a column expression, when it has one. -/
def SAExpr.exprName : SAExpr → Option String
  | .colRef n => some n
  | .fnApp _ _ => none
  | .label _ a => some a

/-- SQLAlchemy selectables, shallowly.  `table` and `cte` are Selectables
that are not Executables; `selectAll`, `selectCols`, `limited` and
`offsetted` are Select statements, i.e. Executables. -/
inductive Relation where
  | table (name : String) (cols : List String)
  | selectAll (base : Relation)
  | selectCols (cols : List SAExpr) (selectFrom : Option Relation)
      (groupBy : List SAExpr)
  | limited (base : Relation) (n : Int)
  | offsetted (base : Relation) (n : Int)
  | cte (base : Relation)

/-- `isinstance(relation, sqlalchemy.sql.expression.Executable)`:
Select statements are executable, tables and CTEs are not. -/
def Relation.isExecutable : Relation → Bool
  | .table _ _ => false
  | .cte _ => false
  | .selectAll _ => true
  | .selectCols _ _ _ => true
  | .limited _ _ => true
  | .offsetted _ _ => true

/-- The column names of a relation (`relation.c` / `relation.columns`).
Anonymous expression columns get a generated placeholder name. -/
def Relation.columns : Relation → List String
  | .table _ cols => cols
  | .selectAll base => base.columns
  | .selectCols cols _ _ => cols.map (fun e => (SAExpr.exprName e).getD "%anon")
  | .limited base _ => base.columns
  | .offsetted base _ => base.columns
  | .cte base => base.columns

/-- An arbitrary Python value handed to a function that asserts selectability:
either a selectable relation or something else entirely. -/
inductive PyObj where
  | rel (r : Relation)
  | nonSelectable (tag : String)

/-- `relation.columns[name]`: looks up a column by name, raising `KeyError`
when the relation has no such column. -/
def relationColumn (relation : Relation) (name : String) :
    Except PyError SAExpr :=
  if relation.columns.contains name then .ok (.colRef name)
  else .error (.keyError name)

/-- `_to_non_executable` (base.py lines 474-483) restricted to values that
passed the selectability assertion: an executable is demoted by wrapping it
as a CTE, a non-executable is returned unchanged. -/
def _to_non_executable_rel (relation : Relation) : Relation :=
  if relation.isExecutable then .cte relation else relation

/-- `_to_executable` (base.py lines 463-471): asserts the argument is a
Selectable; an executable is returned unchanged, otherwise it is wrapped in
a minimal `select(relation)`. -/
def _to_executable : PyObj → Except PyError Relation
  | .nonSelectable _ => .error .assertionError
  | .rel r => .ok (if r.isExecutable then r else .selectAll r)

/-- `_to_non_executable` (base.py lines 474-483): asserts the argument is a
Selectable, then demotes executables via `_to_non_executable_rel`. -/
def _to_non_executable : PyObj → Except PyError Relation
  | .nonSelectable _ => .error .assertionError
  | .rel r => .ok (_to_non_executable_rel r)

/-- `enforce_relation_type_expectations` (base.py lines 486-496): asserts the
argument is a Selectable AND is not an Executable. -/
def enforce_relation_type_expectations : PyObj → Except PyError Unit
  | .nonSelectable _ => .error .assertionError
  | .rel r => if r.isExecutable then .error .assertionError else .ok ()

/-- A Python value is accepted by `enforce_relation_type_expectations` iff it
is a selectable that is not executable (the canonical non-executable form). -/
def isValidNonExecutable : PyObj → Bool
  | .rel r => !r.isExecutable
  | .nonSelectable _ => false

/-- `Transform.__init__` (base.py lines 45-57): raises `ValueError` (the
spec's ConfigurationError) when the class-level `type` tag is `None` or when
the passed spec is `None`; otherwise stores the spec.  The payload type is a
parameter because each variant carries a different spec shape. -/
def Transform.init {α : Type} (typeTag : Option String) (spec : Option α) :
    Except PyError α :=
  match typeTag with
  | none => .error (.valueError "Transform subclasses must define a type.")
  | some _ =>
    match spec with
    | none =>
      .error (.valueError
        "A spec must be passed when instantiating a Transform subclass.")
    | some s => .ok s

/-- `Transform.get_unique_constraint_mappings` (base.py lines 94-106), the
default lineage behavior inherited by Filter, Order, Limit and Offset: each
input alias maps to an identically named output alias. -/
def Transform.get_unique_constraint_mappings (input_aliases : List String) :
    List UniqueConstraintMapping :=
  input_aliases.map (fun input_alias => ⟨some input_alias, input_alias⟩)

/-- `Filter.apply_to_relation` (base.py lines 112-118).  The external
collaborator `apply_db_function_spec_as_filter` is passed in as
`applyFilter`. -/
def Filter.apply_to_relation
    (applyFilter : Relation → FilterSpec → Relation)
    (spec : Option FilterSpec) (relation : PyObj) : Except PyError Relation :=
  match enforce_relation_type_expectations relation with
  | .error e => .error e
  | .ok _ =>
    match _to_executable relation with
    | .error e => .error e
    | .ok executable =>
      let executable :=
        match spec with
        | some filterSpec => applyFilter executable filterSpec
        | none => executable
      .ok (_to_non_executable_rel executable)

/-- `Order.apply_to_relation` (base.py lines 124-132).  The external
collaborators `rec_sort.make_order_by_deterministic` and
`rec_sort.apply_relation_sorting` are passed in as `mkDeterministic` and
`applySorting`. -/
def Order.apply_to_relation
    (mkDeterministic : Relation → Option OrderSpec → Option OrderSpec)
    (applySorting : Relation → OrderSpec → Relation)
    (spec : Option OrderSpec) (relation : PyObj) : Except PyError Relation :=
  match enforce_relation_type_expectations relation with
  | .error e => .error e
  | .ok _ =>
    match relation with
    | .nonSelectable _ => .error .assertionError
    | .rel r =>
      let order_by := mkDeterministic r spec
      let executable :=
        match order_by with
        | some ob => applySorting r ob
        | none => if r.isExecutable then r else .selectAll r
      .ok (_to_non_executable_rel executable)

/-- `Limit.apply_to_relation` (base.py lines 138-142): note that, unlike
Filter and Order, it does NOT call `enforce_relation_type_expectations`; the
only check is the selectability assertion inside `_to_executable`. -/
def Limit.apply_to_relation (limit : Int) (relation : PyObj) :
    Except PyError Relation :=
  match _to_executable relation with
  | .error e => .error e
  | .ok executable => .ok (_to_non_executable_rel (.limited executable limit))

/-- `Offset.apply_to_relation` (base.py lines 148-152): same shape as Limit,
no `enforce_relation_type_expectations` call. -/
def Offset.apply_to_relation (offset : Int) (relation : PyObj) :
    Except PyError Relation :=
  match _to_executable relation with
  | .error e => .error e
  | .ok executable => .ok (_to_non_executable_rel (.offsetted executable offset))

/-- `Summarize._get_grouping_column` (base.py lines 200-211): reads `preproc`
with `.get`, reads `input_alias` and `output_alias` with `[...]` (so a
missing `output_alias` key raises `KeyError` before the column lookup),
looks the input column up on the relation, optionally applies the preproc
DB function, and labels the result with the output alias. -/
def _get_grouping_column (relation : Relation) (col_spec : GroupingColSpec) :
    Except PyError SAExpr :=
  match col_spec.output_alias with
  | none => .error (.keyError "output_alias")
  | some output_alias =>
    match relationColumn relation col_spec.input_alias with
    | .error e => .error e
    | .ok sa_expression =>
      let sa_expression :=
        match col_spec.preproc with
        | some preproc_id => SAExpr.fnApp preproc_id [sa_expression]
        | none => sa_expression
      .ok (SAExpr.label sa_expression output_alias)

/-- `Summarize._get_aggregation_column` (base.py lines 213-222): looks the
input column up, applies the aggregation DB function, labels with the
(required) output alias. -/
def _get_aggregation_column (relation : Relation)
    (col_spec : AggregationColSpec) : Except PyError SAExpr :=
  match relationColumn relation col_spec.input_alias with
  | .error e => .error e
  | .ok column_to_aggregate =>
    .ok (SAExpr.label (SAExpr.fnApp col_spec.function [column_to_aggregate])
          col_spec.output_alias)

/-- The grouping-expression list comprehension of `Summarize.apply_to_relation`
(base.py lines 224-228): left to right, stopping at the first raised error. -/
def _grouping_columns (relation : Relation) :
    List GroupingColSpec → Except PyError (List SAExpr)
  | [] => .ok []
  | col_spec :: rest =>
    match _get_grouping_column relation col_spec with
    | .error e => .error e
    | .ok c =>
      match _grouping_columns relation rest with
      | .error e => .error e
      | .ok cs => .ok (c :: cs)

/-- The aggregation-expression list comprehension of
`Summarize.apply_to_relation` (base.py lines 229-233). -/
def _aggregation_columns (relation : Relation) :
    List AggregationColSpec → Except PyError (List SAExpr)
  | [] => .ok []
  | col_spec :: rest =>
    match _get_aggregation_column relation col_spec with
    | .error e => .error e
    | .ok c =>
      match _aggregation_columns relation rest with
      | .error e => .error e
      | .ok cs => .ok (c :: cs)

/-- `Summarize.apply_to_relation` (base.py lines 198-238): builds
`select(*grouping, *aggregation).group_by(*grouping)` and demotes it to
non-executable form. -/
def Summarize.apply_to_relation (s : SummarizeSpec) (relation : Relation) :
    Except PyError Relation :=
  match _grouping_columns relation s.grouping_expressions with
  | .error e => .error e
  | .ok grouping_expressions =>
    match _aggregation_columns relation s.aggregation_expressions with
    | .error e => .error e
    | .ok aggregation_expressions =>
      .ok (_to_non_executable_rel
        (.selectCols (grouping_expressions ++ aggregation_expressions) none
          grouping_expressions))

/-- The first list comprehension of `Summarize.get_unique_constraint_mappings`
(base.py lines 241-248): one carrying mapping per grouping col spec, reading
`output_alias` with `[...]` so a missing key raises `KeyError`. -/
def _grouping_uc_mappings :
    List GroupingColSpec → Except PyError (List UniqueConstraintMapping)
  | [] => .ok []
  | col_spec :: rest =>
    match col_spec.output_alias with
    | none => .error (.keyError "output_alias")
    | some output_alias =>
      match _grouping_uc_mappings rest with
      | .error e => .error e
      | .ok ms => .ok (⟨some col_spec.input_alias, output_alias⟩ :: ms)

/-- `Summarize.get_unique_constraint_mappings` (base.py lines 240-260): the
`input_aliases` argument is ignored (it is named `_` in the source); the
result is the grouping mappings (carrying uniqueness over) followed by one
`input_alias = None` mapping per aggregation col spec. -/
def Summarize.get_unique_constraint_mappings (s : SummarizeSpec)
    (_input_aliases : List String) :
    Except PyError (List UniqueConstraintMapping) :=
  match _grouping_uc_mappings s.grouping_expressions with
  | .error e => .error e
  | .ok mappings_that_carry_uniqueness_over =>
    .ok (mappings_that_carry_uniqueness_over
      ++ s.aggregation_expressions.map
          (fun col_spec => ⟨none, col_spec.output_alias⟩))

/-- `Summarize.default_group_output_alias_suffix` (base.py line 183). -/
def Summarize.default_group_output_alias_suffix : String := "_grouped"

/-- `Summarize.default_agg_output_alias_suffix` (base.py line 184). -/
def Summarize.default_agg_output_alias_suffix : String := "_agged"

/-- Modelled from the spec: `DistinctArrayAgg.id`, the identifier of the
distinct-array-aggregate DB function, lives in
`db.deprecated.functions.packed`, which is not part of the core source; the
Summarize docstring names the identifier `distinct_aggregate_to_array`. -/
def DistinctArrayAggId : String := "distinct_aggregate_to_array"

/-- `Summarize.get_new_with_aliases_added_to_group_by` (base.py lines
262-275) together with `_add_aliases_to_summarization_expr_field` (lines
339-361): deep-copies the transform and appends, per alias, a grouping col
spec `{input_alias: alias, output_alias: alias + "_grouped"}` (no `preproc`
key).  The deepcopy-then-mutate of the source is a pure record update here,
so the argument is intrinsically unmodified. -/
def Summarize.get_new_with_aliases_added_to_group_by (s : SummarizeSpec)
    (aliases : List String) : SummarizeSpec :=
  { s with
    grouping_expressions := s.grouping_expressions
      ++ aliases.map (fun a =>
          ⟨a, some (a ++ Summarize.default_group_output_alias_suffix), none⟩) }

/-- `Summarize.get_new_with_aliases_added_to_agg_on` (base.py lines 277-292)
together with `_add_aliases_to_summarization_expr_field`: appends, per
alias, an aggregation col spec `{input_alias: alias, output_alias: alias +
"_agged", function: DistinctArrayAgg.id}`. -/
def Summarize.get_new_with_aliases_added_to_agg_on (s : SummarizeSpec)
    (aliases : List String) : SummarizeSpec :=
  { s with
    aggregation_expressions := s.aggregation_expressions
      ++ aliases.map (fun a =>
          ⟨a, a ++ Summarize.default_agg_output_alias_suffix,
           DistinctArrayAggId⟩) }

/-- `HideColumns.get_columns_to_select` (base.py lines 395-401): all input
aliases not in the hidden set, in input order. -/
def HideColumns.get_columns_to_select (columns_to_hide : List String)
    (input_aliases : List String) : List String :=
  input_aliases.filter (fun column => !columns_to_hide.contains column)

/-- `HideColumns.get_unique_constraint_mappings` (base.py lines 384-393):
identity mapping on the surviving columns. -/
def HideColumns.get_unique_constraint_mappings (columns_to_hide : List String)
    (input_aliases : List String) : List UniqueConstraintMapping :=
  (HideColumns.get_columns_to_select columns_to_hide input_aliases).map
    (fun column_to_select => ⟨some column_to_select, column_to_select⟩)

/-- An item of a SelectSubsetOfColumns spec: a plain column-name string or an
already-built SQLAlchemy column expression (base.py lines 439-448). -/
inductive RawCol where
  | name (s : String)
  | expr (e : SAExpr)

/-- `_make_sure_sa_col_expr` (base.py lines 451-460): a string is looked up
as a column name on the relation (`relation.c[col_name]`, `KeyError` when
absent); anything else is presumed to already be a column expression. -/
def _make_sure_sa_col_expr (raw_col : RawCol) (relation : Relation) :
    Except PyError SAExpr :=
  match raw_col with
  | .name col_name => relationColumn relation col_name
  | .expr sa_col => .ok sa_col

/-- The tuple comprehension of `SelectSubsetOfColumns._get_sa_columns_to_select`
(base.py lines 432-437). -/
def _get_sa_columns_to_select (relation : Relation) :
    List RawCol → Except PyError (List SAExpr)
  | [] => .ok []
  | raw_col :: rest =>
    match _make_sure_sa_col_expr raw_col relation with
    | .error e => .error e
    | .ok c =>
      match _get_sa_columns_to_select relation rest with
      | .error e => .error e
      | .ok cs => .ok (c :: cs)

/-- `SelectSubsetOfColumns.apply_to_relation` (base.py lines 411-417): when
the resolved column tuple is non-empty, builds
`select(*columns).select_from(relation)` and demotes it; when it is empty,
returns the input relation itself unchanged. -/
def SelectSubsetOfColumns.apply_to_relation (spec : List RawCol)
    (relation : Relation) : Except PyError Relation :=
  match _get_sa_columns_to_select relation spec with
  | .error e => .error e
  | .ok sa_columns_to_select =>
    if sa_columns_to_select.isEmpty then .ok relation
    else .ok (_to_non_executable_rel
      (.selectCols sa_columns_to_select (some relation) []))

/-- The name under which a raw spec item appears in
`SelectSubsetOfColumns.get_unique_constraint_mappings`; the source comment
presumes the raw spec items are always string names there. -/
def rawColName : RawCol → String
  | .name s => s
  | .expr e => (SAExpr.exprName e).getD "%anon"

/-- `SelectSubsetOfColumns.get_unique_constraint_mappings` (base.py lines
419-430): each selected name maps to itself; the `input_aliases` argument is
ignored (named `_` in the source). -/
def SelectSubsetOfColumns.get_unique_constraint_mappings (spec : List RawCol)
    (_input_aliases : List String) : List UniqueConstraintMapping :=
  spec.map (fun raw_col => ⟨some (rawColName raw_col), rawColName raw_col⟩)

/-- `HideColumns.apply_to_relation` (base.py lines 373-382): reads the
relation's current column names, computes the survivors, and delegates to a
`SelectSubsetOfColumns` built from them. -/
def HideColumns.apply_to_relation (columns_to_hide : List String)
    (relation : Relation) : Except PyError Relation :=
  let input_aliases := relation.columns
  let columns_to_select :=
    HideColumns.get_columns_to_select columns_to_hide input_aliases
  SelectSubsetOfColumns.apply_to_relation (columns_to_select.map RawCol.name)
    relation

/-- The closed union of transform variants (base.py classes Filter, Order,
Limit, Offset, Summarize, HideColumns, SelectSubsetOfColumns), each carrying
its spec payload. -/
inductive TransformV where
  | filter (spec : Option FilterSpec)
  | order (spec : Option OrderSpec)
  | limit (spec : Int)
  | offset (spec : Int)
  | summarize (spec : SummarizeSpec)
  | hideColumns (spec : List String)
  | selectSubsetOfColumns (spec : List RawCol)

/-- Dynamic dispatch for `get_unique_constraint_mappings`: Summarize,
HideColumns and SelectSubsetOfColumns override it; Filter, Order, Limit and
Offset inherit the default from `Transform` (base.py lines 94-106). -/
def TransformV.get_unique_constraint_mappings :
    TransformV → List String → Except PyError (List UniqueConstraintMapping)
  | .summarize s, input_aliases =>
    Summarize.get_unique_constraint_mappings s input_aliases
  | .hideColumns h, input_aliases =>
    .ok (HideColumns.get_unique_constraint_mappings h input_aliases)
  | .selectSubsetOfColumns s, input_aliases =>
    .ok (SelectSubsetOfColumns.get_unique_constraint_mappings s input_aliases)
  | .filter _, input_aliases =>
    .ok (Transform.get_unique_constraint_mappings input_aliases)
  | .order _, input_aliases =>
    .ok (Transform.get_unique_constraint_mappings input_aliases)
  | .limit _, input_aliases =>
    .ok (Transform.get_unique_constraint_mappings input_aliases)
  | .offset _, input_aliases =>
    .ok (Transform.get_unique_constraint_mappings input_aliases)

/-- `Transform.get_output_aliases` (base.py lines 86-92): the `output_alias`
field of each unique constraint mapping, in order. -/
def TransformV.get_output_aliases (t : TransformV)
    (input_aliases : List String) : Except PyError (List String) :=
  (t.get_unique_constraint_mappings input_aliases).map
    (fun uc_mappings => uc_mappings.map UniqueConstraintMapping.output_alias)

/-- Class-level `type` tags (base.py lines 110, 122, 136, 146, 180, 371,
409). -/
def Filter.typeTag : Option String := some "filter"

/-- `Order.type` (base.py line 122). -/
def Order.typeTag : Option String := some "order"

/-- `Limit.type` (base.py line 136). -/
def Limit.typeTag : Option String := some "limit"

/-- `Offset.type` (base.py line 146). -/
def Offset.typeTag : Option String := some "offset"

/-- `Summarize.type` (base.py line 180). -/
def Summarize.typeTag : Option String := some "summarize"

/-- `HideColumns.type` (base.py line 371). -/
def HideColumns.typeTag : Option String := some "hide"

/-- `SelectSubsetOfColumns.type` (base.py line 409). -/
def SelectSubsetOfColumns.typeTag : Option String := some "select"

/-- Constructing a `Filter` runs the inherited `Transform.__init__`. -/
def Filter.mkTransform (spec : Option FilterSpec) : Except PyError TransformV :=
  (Transform.init Filter.typeTag spec).map (fun s => TransformV.filter (some s))

/-- Constructing an `Order` runs the inherited `Transform.__init__`. -/
def Order.mkTransform (spec : Option OrderSpec) : Except PyError TransformV :=
  (Transform.init Order.typeTag spec).map (fun s => TransformV.order (some s))

/-- Constructing a `Limit` runs the inherited `Transform.__init__`. -/
def Limit.mkTransform (spec : Option Int) : Except PyError TransformV :=
  (Transform.init Limit.typeTag spec).map TransformV.limit

/-- Constructing an `Offset` runs the inherited `Transform.__init__`. -/
def Offset.mkTransform (spec : Option Int) : Except PyError TransformV :=
  (Transform.init Offset.typeTag spec).map TransformV.offset

/-- Constructing a `Summarize` runs the inherited `Transform.__init__`. -/
def Summarize.mkTransform (spec : Option SummarizeSpec) :
    Except PyError TransformV :=
  (Transform.init Summarize.typeTag spec).map TransformV.summarize

/-- Constructing a `HideColumns` runs the inherited `Transform.__init__`. -/
def HideColumns.mkTransform (spec : Option (List String)) :
    Except PyError TransformV :=
  (Transform.init HideColumns.typeTag spec).map TransformV.hideColumns

/-- Constructing a `SelectSubsetOfColumns` runs the inherited
`Transform.__init__`. -/
def SelectSubsetOfColumns.mkTransform (spec : Option (List RawCol)) :
    Except PyError TransformV :=
  (Transform.init SelectSubsetOfColumns.typeTag spec).map
    TransformV.selectSubsetOfColumns

/-- When every grouping item carries an `output_alias` key, the grouping
unique-constraint mappings succeed and map each item's input alias to its
output alias. -/
theorem grouping_uc_mappings_ok (l : List GroupingColSpec)
    (h : ∀ g ∈ l, g.output_alias.isSome) :
    _grouping_uc_mappings l =
      .ok (l.map (fun g => ⟨some g.input_alias, g.output_alias.getD ""⟩)) := by
  induction l with
  | nil => rfl
  | cons g rest ih =>
    obtain ⟨v, hv⟩ := Option.isSome_iff_exists.mp (h g (by simp))
    have hrest := ih (fun x hx => h x (List.mem_cons_of_mem _ hx))
    simp [_grouping_uc_mappings, hv, hrest]

/-- C1: for every Summarize transform (whose grouping items carry their
output aliases, as the data model's items do) and every input alias list,
get_unique_constraint_mappings returns one record per grouping item mapping
its input alias to its output alias, followed by one record per aggregation
item with input alias None and that item's output alias. -/
theorem c1_summarize_unique_constraint_mappings (s : SummarizeSpec)
    (input_aliases : List String)
    (h : ∀ g ∈ s.grouping_expressions, g.output_alias.isSome) :
    Summarize.get_unique_constraint_mappings s input_aliases =
      .ok ((s.grouping_expressions.map
             (fun g => ⟨some g.input_alias, g.output_alias.getD ""⟩))
        ++ (s.aggregation_expressions.map
             (fun a => ⟨none, a.output_alias⟩))) := by
  simp [Summarize.get_unique_constraint_mappings, grouping_uc_mappings_ok _ h]

/-- Witness for C1, at the spec's concrete example: grouping a -> a1 and
count-aggregation b -> b1 over input aliases [a, b]. -/
theorem c1_summarize_unique_constraint_mappings_witness :
    Summarize.get_unique_constraint_mappings
        ⟨"a", [⟨"a", some "a1", none⟩], [⟨"b", "b1", "count"⟩]⟩ ["a", "b"] =
      .ok [⟨some "a", "a1"⟩, ⟨none, "b1"⟩] :=
  c1_summarize_unique_constraint_mappings _ _ (by decide)

/-- C2 counterexample: a grouping item that omits the output_alias key makes
get_unique_constraint_mappings raise KeyError instead of defaulting the
output alias to the input alias "a". -/
theorem c2_omitted_output_alias_counterexample :
    Summarize.get_unique_constraint_mappings
        ⟨"a", [⟨"a", none, none⟩], []⟩ ["a"] =
      .error (.keyError "output_alias") ∧
    Summarize.get_unique_constraint_mappings
        ⟨"a", [⟨"a", none, none⟩], []⟩ ["a"] ≠
      .ok [⟨some "a", "a"⟩] := by
  refine ⟨rfl, ?_⟩
  intro hcontra
  simp [Summarize.get_unique_constraint_mappings,
    _grouping_uc_mappings] at hcontra

/-- C2 (amended): a grouping-expression item whose output_alias is omitted is
not defaulted to the input alias; with such an item first in the grouping
list, both get_unique_constraint_mappings and apply_to_relation raise
KeyError for the missing key (apply_to_relation reads the key before any
column lookup). -/
theorem c2_omitted_output_alias_raises (s : SummarizeSpec) (r : Relation)
    (input_aliases : List String) (g0 : GroupingColSpec)
    (gs : List GroupingColSpec)
    (h1 : s.grouping_expressions = g0 :: gs)
    (h2 : g0.output_alias = none) :
    Summarize.get_unique_constraint_mappings s input_aliases =
      .error (.keyError "output_alias") ∧
    Summarize.apply_to_relation s r = .error (.keyError "output_alias") := by
  constructor
  · simp [Summarize.get_unique_constraint_mappings, h1,
      _grouping_uc_mappings, h2]
  · simp [Summarize.apply_to_relation, h1, _grouping_columns,
      _get_grouping_column, h2]

/-- Witness for C2's amended theorem: the concrete spec with one grouping
item on "x" lacking output_alias, applied on a table with column "x". -/
theorem c2_omitted_output_alias_raises_witness :
    Summarize.get_unique_constraint_mappings ⟨"b", [⟨"x", none, none⟩], []⟩ []
      = .error (.keyError "output_alias") ∧
    Summarize.apply_to_relation ⟨"b", [⟨"x", none, none⟩], []⟩
        (.table "t" ["x"]) =
      .error (.keyError "output_alias") :=
  c2_omitted_output_alias_raises _ _ _ ⟨"x", none, none⟩ [] rfl rfl

/-- Mapping the default unique-constraint mappings back to their output
aliases recovers the input alias list. -/
theorem default_output_aliases_id (L : List String) :
    (Transform.get_unique_constraint_mappings L).map
      UniqueConstraintMapping.output_alias = L := by
  induction L with
  | nil => rfl
  | cons a t ih => simpa [Transform.get_unique_constraint_mappings] using ih

/-- C3: Filter, Order, Limit and Offset inherit the default lineage: on any
input alias list A, get_output_aliases returns A itself and every
unique-constraint mapping sends each alias of A, in order, to itself. -/
theorem c3_default_lineage_identity (fspec : Option FilterSpec)
    (ospec : Option OrderSpec) (lim off : Int) (A : List String) :
    (TransformV.filter fspec).get_output_aliases A = .ok A ∧
    (TransformV.order ospec).get_output_aliases A = .ok A ∧
    (TransformV.limit lim).get_output_aliases A = .ok A ∧
    (TransformV.offset off).get_output_aliases A = .ok A ∧
    (TransformV.filter fspec).get_unique_constraint_mappings A =
      .ok (A.map (fun a => ⟨some a, a⟩)) ∧
    (TransformV.order ospec).get_unique_constraint_mappings A =
      .ok (A.map (fun a => ⟨some a, a⟩)) ∧
    (TransformV.limit lim).get_unique_constraint_mappings A =
      .ok (A.map (fun a => ⟨some a, a⟩)) ∧
    (TransformV.offset off).get_unique_constraint_mappings A =
      .ok (A.map (fun a => ⟨some a, a⟩)) := by
  refine ⟨?_, ?_, ?_, ?_, rfl, rfl, rfl, rfl⟩ <;>
    simp [TransformV.get_output_aliases,
      TransformV.get_unique_constraint_mappings, Except.map,
      default_output_aliases_id]

/-- C4 counterexample: Limit and Offset silently accept a relation that is
already in executable form; apply_to_relation succeeds on it instead of
failing with the RelationShapeError assertion. -/
theorem c4_limit_accepts_executable_counterexample :
    (Relation.selectAll (.table "t" ["x"])).isExecutable = true ∧
    Limit.apply_to_relation 5 (.rel (.selectAll (.table "t" ["x"]))) =
      .ok (.cte (.limited (.selectAll (.table "t" ["x"])) 5)) ∧
    Offset.apply_to_relation 5 (.rel (.selectAll (.table "t" ["x"]))) =
      .ok (.cte (.offsetted (.selectAll (.table "t" ["x"])) 5)) :=
  ⟨rfl, rfl, rfl⟩

/-- C4 (amended): Filter and Order — the transforms that call
enforce_relation_type_expectations — fail with the RelationShapeError
assertion on every input that is not a valid selectable in non-executable
form; Limit and Offset only assert selectability inside _to_executable and
accept executables (see the counterexample). -/
theorem c4_filter_order_enforce_canonical_form
    (applyFilter : Relation → FilterSpec → Relation)
    (mkDeterministic : Relation → Option OrderSpec → Option OrderSpec)
    (applySorting : Relation → OrderSpec → Relation)
    (fspec : Option FilterSpec) (ospec : Option OrderSpec) (obj : PyObj)
    (h : isValidNonExecutable obj = false) :
    Filter.apply_to_relation applyFilter fspec obj = .error .assertionError ∧
    Order.apply_to_relation mkDeterministic applySorting ospec obj =
      .error .assertionError := by
  cases obj with
  | nonSelectable tag => exact ⟨rfl, rfl⟩
  | rel r =>
    simp [isValidNonExecutable] at h
    constructor
    · simp [Filter.apply_to_relation, enforce_relation_type_expectations, h]
    · simp [Order.apply_to_relation, enforce_relation_type_expectations, h]

/-- Witness for C4's amended theorem: an already-executable relation is
rejected by both Filter and Order. -/
theorem c4_filter_order_enforce_canonical_form_witness :
    Filter.apply_to_relation (fun r _ => r) none
        (.rel (.selectAll (.table "u" ["y"]))) = .error .assertionError ∧
    Order.apply_to_relation (fun _ o => o) (fun r _ => .selectAll r) none
        (.rel (.selectAll (.table "u" ["y"]))) = .error .assertionError :=
  c4_filter_order_enforce_canonical_form _ _ _ _ _ _ rfl

/-- C5: the with-aliases-added builders append the expected col specs
(suffixes "_grouped" / "_agged", the latter with the distinct-array-agg
function) and leave every other field of the spec unchanged; being pure
functions of the spec value, they leave the original value untouched. -/
theorem c5_with_aliases_added (s : SummarizeSpec) (aliases : List String) :
    (Summarize.get_new_with_aliases_added_to_group_by s
        aliases).grouping_expressions =
      s.grouping_expressions
        ++ aliases.map (fun a => ⟨a, some (a ++ "_grouped"), none⟩) ∧
    (Summarize.get_new_with_aliases_added_to_group_by s
        aliases).aggregation_expressions = s.aggregation_expressions ∧
    (Summarize.get_new_with_aliases_added_to_group_by s
        aliases).base_grouping_column = s.base_grouping_column ∧
    (Summarize.get_new_with_aliases_added_to_agg_on s
        aliases).aggregation_expressions =
      s.aggregation_expressions
        ++ aliases.map (fun a => ⟨a, a ++ "_agged", DistinctArrayAggId⟩) ∧
    (Summarize.get_new_with_aliases_added_to_agg_on s
        aliases).grouping_expressions = s.grouping_expressions ∧
    (Summarize.get_new_with_aliases_added_to_agg_on s
        aliases).base_grouping_column = s.base_grouping_column ∧
    (Summarize.get_new_with_aliases_added_to_group_by
        ⟨"g", [⟨"a", some "a1", none⟩], []⟩ ["c"]).grouping_expressions =
      [⟨"a", some "a1", none⟩, ⟨"c", some "c_grouped", none⟩] :=
  ⟨rfl, rfl, rfl, rfl, rfl, rfl, rfl⟩

/-- C6: HideColumns selects exactly the input aliases not in the hidden set,
preserving their relative order (a sublist of the input), with the spec's
concrete example, and its unique-constraint mappings are the identity on
the surviving columns. -/
theorem c6_hide_columns_select_and_lineage (H A : List String) :
    (∀ a, a ∈ HideColumns.get_columns_to_select H A ↔ (a ∈ A ∧ a ∉ H)) ∧
    (HideColumns.get_columns_to_select H A).Sublist A ∧
    HideColumns.get_columns_to_select ["y"] ["x", "y", "z"] = ["x", "z"] ∧
    HideColumns.get_unique_constraint_mappings H A =
      (HideColumns.get_columns_to_select H A).map (fun c => ⟨some c, c⟩) := by
  refine ⟨?_, List.filter_sublist _, rfl, rfl⟩
  intro a
  simp [HideColumns.get_columns_to_select, List.mem_filter]

/-- C7: applying SelectSubsetOfColumns with an empty spec list to any
relation returns that relation itself unchanged. -/
theorem c7_select_subset_empty_noop (r : Relation) :
    SelectSubsetOfColumns.apply_to_relation [] r = .ok r := rfl

/-- The result of demoting a relation to non-executable form is never
executable. -/
theorem to_non_executable_rel_not_executable (r : Relation) :
    (_to_non_executable_rel r).isExecutable = false := by
  by_cases hr : r.isExecutable = true
  · have hcte : _to_non_executable_rel r = r.cte := by
      simp [_to_non_executable_rel, hr]
    rw [hcte]
    rfl
  · have hr' : r.isExecutable = false := by simpa using hr
    have hid : _to_non_executable_rel r = r := by
      simp [_to_non_executable_rel, hr']
    rw [hid, hr']

/-- Demoting a relation that is already non-executable returns it
unchanged. -/
theorem to_non_executable_rel_of_not_executable (x : Relation)
    (h : x.isExecutable = false) : _to_non_executable_rel x = x := by
  simp [_to_non_executable_rel, h]

/-- C8: to_non_executable is idempotent on every selectable relation — a
second application returns its argument unchanged. -/
theorem c8_to_non_executable_idempotent (r : Relation) :
    _to_non_executable (.rel (_to_non_executable_rel r)) =
      .ok (_to_non_executable_rel r) ∧
    _to_non_executable_rel (_to_non_executable_rel r) =
      _to_non_executable_rel r := by
  have h2 := to_non_executable_rel_of_not_executable _
    (to_non_executable_rel_not_executable r)
  exact ⟨congrArg Except.ok h2, h2⟩

/-- C9: constructing any of the seven transform variants with a null spec
fails at construction with the ConfigurationError ValueError, and a
successful construction always stores the passed (non-null) spec. -/
theorem c9_null_spec_fails_construction :
    Filter.mkTransform none =
      .error (.valueError
        "A spec must be passed when instantiating a Transform subclass.") ∧
    Order.mkTransform none =
      .error (.valueError
        "A spec must be passed when instantiating a Transform subclass.") ∧
    Limit.mkTransform none =
      .error (.valueError
        "A spec must be passed when instantiating a Transform subclass.") ∧
    Offset.mkTransform none =
      .error (.valueError
        "A spec must be passed when instantiating a Transform subclass.") ∧
    Summarize.mkTransform none =
      .error (.valueError
        "A spec must be passed when instantiating a Transform subclass.") ∧
    HideColumns.mkTransform none =
      .error (.valueError
        "A spec must be passed when instantiating a Transform subclass.") ∧
    SelectSubsetOfColumns.mkTransform none =
      .error (.valueError
        "A spec must be passed when instantiating a Transform subclass.") ∧
    (∀ f : FilterSpec, Filter.mkTransform (some f) = .ok (.filter (some f))) ∧
    (∀ o : OrderSpec, Order.mkTransform (some o) = .ok (.order (some o))) ∧
    (∀ n : Int, Limit.mkTransform (some n) = .ok (.limit n)) ∧
    (∀ n : Int, Offset.mkTransform (some n) = .ok (.offset n)) ∧
    (∀ s : SummarizeSpec,
      Summarize.mkTransform (some s) = .ok (.summarize s)) ∧
    (∀ hs : List String,
      HideColumns.mkTransform (some hs) = .ok (.hideColumns hs)) ∧
    (∀ c : List RawCol,
      SelectSubsetOfColumns.mkTransform (some c) =
        .ok (.selectSubsetOfColumns c)) :=
  ⟨rfl, rfl, rfl, rfl, rfl, rfl, rfl, fun _ => rfl, fun _ => rfl,
   fun _ => rfl, fun _ => rfl, fun _ => rfl, fun _ => rfl, fun _ => rfl⟩

/-- C10: Summarize's get_unique_constraint_mappings ignores its input-aliases
argument entirely; the result depends only on the transform's spec. -/
theorem c10_summarize_ucm_ignores_input_aliases (s : SummarizeSpec)
    (A B : List String) :
    Summarize.get_unique_constraint_mappings s A =
      Summarize.get_unique_constraint_mappings s B := rfl
